import Mathlib

/-!
Shallow embedding of the mandala pattern generator and SVG exporter
(source: src/unnamed/part_000, a React/TypeScript single-file app).

The generator is the `MandalaCanvas` component (lines 68-162): a pure
function of its props that lays out triangular wedge polygons around a
fixed center, an optional watermark text, and a final center-dot circle.
The exporter is the `exportSVG` callback (lines 229-258): it serializes
the live svg element into a fresh standalone root and stages the bytes
for download through an object URL.

Real-valued geometry (cos/sin on angles in degrees) is embedded over ℝ;
attribute-level scalars (opacities, radii of the fixed circles, font
size) are embedded over ℚ so that structural facts stay decidable.
-/

namespace Mandala

/-- The two symmetry modes of the spec (source line 31). -/
inductive Symmetry where
  | radial
  | mirror
deriving DecidableEq, Repr

/-- The `MandalaSpec` record (source lines 29-34). `segments` is a TS `number`;
the claims quantify over integers, so it is embedded as ℤ. -/
structure MandalaSpec where
  segments : ℤ
  symmetry : Symmetry
  color : String
  showWatermark : Bool
deriving DecidableEq, Repr

/-- A point on the canvas (the x, y pairs built inside `MandalaCanvas`). -/
structure Point where
  x : ℝ
  y : ℝ

/-- The drawable primitives emitted by `MandalaCanvas` as children of its
svg element, in source order: a defs node (holding the unused circle
template `grad`), the transparent background rect, wedge polygons, the
optional watermark text, and the center-dot circle. -/
inductive Prim where
  | defsNode (child : Prim)
  | rect (x y w h : ℚ) (fill : String) (opacity : ℚ)
  | polygon (key : String) (apex p1 p2 : Point) (fill : String) (opacity : ℚ) (stroke : String)
  | text (x y : ℚ) (anchor fill : String) (opacity : ℚ) (fontSize : ℚ) (family content : String)
  | circle (id : Option String) (cx cy r : ℚ) (fill : String) (opacity : Option ℚ)

/-- The `clamp` helper (source lines 64-66): `Math.max(min, Math.min(max, n))`.
It is defined in the source but never called anywhere in the file. -/
def clamp (n lo hi : ℤ) : ℤ := max lo (min hi n)

/-- Canvas center x (source line 69). -/
def cx : ℝ := 210

/-- Canvas center y (source line 70). -/
def cy : ℝ := 210

/-- Outer ring radius (source line 71). -/
def outerR : ℝ := 140

/-- Angular step `360 / spec.segments` in degrees (source line 72). -/
noncomputable def step (spec : MandalaSpec) : ℝ := 360 / (spec.segments : ℝ)

/-- Inner ring radius `outerR * 0.6` (source line 73). -/
noncomputable def innerR : ℝ := outerR * 0.6

/-- Degree-to-radian helper `a2` (source line 78): `(angle * Math.PI) / 180`. -/
noncomputable def a2 (angle : ℝ) : ℝ := angle * Real.pi / 180

/-- Outer wedge pushed at iteration `i` of the main loop (source lines 80-96):
triangle from the center to two points on the outer ring at angles `i*step`
and `i*step + step`, filled with the spec color at opacity 0.8. -/
noncomputable def wedgeOuter (spec : MandalaSpec) (i : ℕ) : Prim :=
  let aStart : ℝ := (i : ℝ) * step spec
  let aEnd : ℝ := aStart + step spec
  Prim.polygon ("ow-" ++ toString i) ⟨cx, cy⟩
    ⟨cx + Real.cos (a2 aStart) * outerR, cy + Real.sin (a2 aStart) * outerR⟩
    ⟨cx + Real.cos (a2 aEnd) * outerR, cy + Real.sin (a2 aEnd) * outerR⟩
    spec.color 0.8 "none"

/-- Inner wedge pushed at iteration `i` of the main loop (source lines 98-109):
same angles as the outer wedge, on the inner ring, at opacity 0.25. -/
noncomputable def wedgeInner (spec : MandalaSpec) (i : ℕ) : Prim :=
  let aStart : ℝ := (i : ℝ) * step spec
  let aEnd : ℝ := aStart + step spec
  Prim.polygon ("iw-" ++ toString i) ⟨cx, cy⟩
    ⟨cx + Real.cos (a2 aStart) * innerR, cy + Real.sin (a2 aStart) * innerR⟩
    ⟨cx + Real.cos (a2 aEnd) * innerR, cy + Real.sin (a2 aEnd) * innerR⟩
    spec.color 0.25 "none"

/-- Mirror outer wedge at iteration `i` of the mirror loop (source lines
115-129): angles `-i*step` and `-(i*step) - step`, outer ring, opacity 0.6. -/
noncomputable def wedgeMirrorOuter (spec : MandalaSpec) (i : ℕ) : Prim :=
  let aStart : ℝ := -(i : ℝ) * step spec
  let aEnd : ℝ := -((i : ℝ) * step spec) - step spec
  Prim.polygon ("mw-" ++ toString i) ⟨cx, cy⟩
    ⟨cx + Real.cos (aStart * Real.pi / 180) * outerR, cy + Real.sin (aStart * Real.pi / 180) * outerR⟩
    ⟨cx + Real.cos (aEnd * Real.pi / 180) * outerR, cy + Real.sin (aEnd * Real.pi / 180) * outerR⟩
    spec.color 0.6 "none"

/-- Mirror inner wedge at iteration `i` of the mirror loop (source lines
131-141): same negated angles, inner ring, opacity 0.15. -/
noncomputable def wedgeMirrorInner (spec : MandalaSpec) (i : ℕ) : Prim :=
  let aStart : ℝ := -(i : ℝ) * step spec
  let aEnd : ℝ := -((i : ℝ) * step spec) - step spec
  Prim.polygon ("mi-" ++ toString i) ⟨cx, cy⟩
    ⟨cx + Real.cos (aStart * Real.pi / 180) * innerR, cy + Real.sin (aStart * Real.pi / 180) * innerR⟩
    ⟨cx + Real.cos (aEnd * Real.pi / 180) * innerR, cy + Real.sin (aEnd * Real.pi / 180) * innerR⟩
    spec.color 0.15 "none"

/-- The `wedgesOuter` array after the main loop (source lines 75, 80-96). -/
noncomputable def wedgesOuter (spec : MandalaSpec) : List Prim :=
  (List.range spec.segments.toNat).map (wedgeOuter spec)

/-- The `wedgesInner` array after the main loop (source lines 76, 98-110). -/
noncomputable def wedgesInner (spec : MandalaSpec) : List Prim :=
  (List.range spec.segments.toNat).map (wedgeInner spec)

/-- The `wedgesMirror` array after the mirror loop (source lines 113-143):
each iteration pushes the mirror outer wedge then the mirror inner wedge. -/
noncomputable def wedgesMirror (spec : MandalaSpec) : List Prim :=
  (List.range spec.segments.toNat).flatMap
    (fun i => [wedgeMirrorOuter spec i, wedgeMirrorInner spec i])

/-- The defs child of the svg (source lines 147-149): a circle template
with id `grad` at the center, outer radius, filled with the spec color. -/
def defsPrim (spec : MandalaSpec) : Prim :=
  Prim.defsNode (Prim.circle (some "grad") 210 210 140 spec.color none)

/-- The background rect (source line 150): full canvas, fill `#111`, opacity 0. -/
def backgroundRect : Prim := Prim.rect 0 0 420 420 "#111" 0

/-- The watermark text (source lines 154-158): centered, white, opacity 0.15,
font size 42, family Inter, fixed content MANDALA. -/
def watermarkText : Prim := Prim.text 210 210 "middle" "white" 0.15 42 "Inter" "MANDALA"

/-- The center dot (source line 159): circle of radius 6 at the center,
white fill `#fff`, opacity 0.3. -/
def centerDot : Prim := Prim.circle none 210 210 6 "#fff" (some 0.3)

/-- The `MandalaCanvas` generator (source lines 68-162): the ordered children of the svg
element it returns. The `watermark` prop is accepted (source line 68) but
never read in the body; the text primitive is gated on `spec.showWatermark`
(source line 154), and the mirror wedges on `spec.symmetry` (source line 153). -/
noncomputable def MandalaCanvas (spec : MandalaSpec) (watermark : Bool) : List Prim :=
  [defsPrim spec, backgroundRect]
    ++ wedgesOuter spec
    ++ wedgesInner spec
    ++ (if spec.symmetry = Symmetry.mirror then wedgesMirror spec else [])
    ++ (if spec.showWatermark then [watermarkText] else [])
    ++ [centerDot]

/-- A spec is valid when its segment count lies in the documented range. -/
def Valid (spec : MandalaSpec) : Prop := 3 ≤ spec.segments ∧ spec.segments ≤ 48

instance (spec : MandalaSpec) : Decidable (Valid spec) := by
  unfold Valid; infer_instance

/-! ## Exporter model

`exportSVG` (source lines 229-258) works on the live DOM: it bails out when
`svgRef.current` is null, otherwise builds a fresh standalone svg root,
moves every child of a deep clone of the live element into it (the
`while (clone.firstChild)` loop), serializes, and stages the bytes for
download through a Blob object URL and a synthetic anchor click. DOM
elements are embedded as a tree with value semantics, so `cloneNode`
is the identity and moving children transfers the child list in order. -/

/-- A DOM node: an element with tag, attributes and ordered children,
or a text node. -/
inductive Node where
  | elem (tag : String) (attrs : List (String × String)) (children : List Node)
  | textNode (content : String)

/-- The ordered child list of a node (text nodes have none). -/
def childrenOf : Node → List Node
  | Node.elem _ _ cs => cs
  | Node.textNode _ => []

/-- The deep copy `el.cloneNode(true)` (source line 242), which under value
semantics is the node itself. -/
def cloneNode (n : Node) : Node := n

/-- The `while (clone.firstChild) outer.appendChild(clone.firstChild)` loop
(source lines 244-246): repeatedly removes the first remaining child and
appends it to the accumulated child list of the new root. -/
def transplantLoop : List Node → List Node → List Node
  | acc, [] => acc
  | acc, c :: rest => transplantLoop (acc ++ [c]) rest

/-- The SVG namespace URI used for the new root (source lines 235-236). -/
def svgNS : String := "http://www.w3.org/2000/svg"

/-- The fresh standalone root built by the exporter (source lines 235-246):
an svg element carrying the namespace declaration, pixel width and height
420, and the view box, whose children are transplanted from the clone of
the live element. -/
def standaloneRoot (el : Node) : Node :=
  Node.elem "svg"
    [("xmlns", svgNS), ("width", "420"), ("height", "420"), ("viewBox", "0 0 420 420")]
    (transplantLoop [] (childrenOf (cloneNode el)))

/-- Serialize one attribute as ` key=value` with the value quoted. -/
def serializeAttr (kv : String × String) : String :=
  " " ++ kv.1 ++ "=" ++ "\"" ++ kv.2 ++ "\""

mutual

/-- The serializer `XMLSerializer.serializeToString` (source lines 233, 248), modelled as a
plain recursive markup printer over the node tree. -/
def serializeNode : Node → String
  | Node.textNode s => s
  | Node.elem tag attrs children =>
      "<" ++ tag ++ String.join (attrs.map serializeAttr) ++ ">"
        ++ serializeList children ++ "</" ++ tag ++ ">"

/-- Serialize a child list in order. -/
def serializeList : List Node → String
  | [] => ""
  | n :: rest => serializeNode n ++ serializeList rest

end

/-- The `(bytes, filename, content type)` triple staged for the download
sink: Blob content and type (source line 249) and the anchor download
name (source line 253). -/
structure SinkCall where
  bytes : String
  filename : String
  contentType : String
deriving DecidableEq, Repr

/-- The `exportSVG` callback (source lines 229-258) as a function of the live render:
`none` when `svgRef.current` is null (source line 232, early return,
nothing produced), otherwise the staged sink call whose bytes serialize
the standalone root. -/
def exportSVG (svgRef : Option Node) : Option SinkCall :=
  match svgRef with
  | none => none
  | some el =>
      let outer := standaloneRoot el
      some { bytes := serializeNode outer
             filename := "mandala.svg"
             contentType := "image/svg+xml;charset=utf-8" }

/-- The MIME type proper of a content-type string: the part before any
`;`-separated parameter such as a charset. -/
def mimeOf (s : String) : String := String.mk (s.toList.takeWhile (fun c => c ≠ ';'))

/-- The side-effecting statements of the download-staging tail of
`exportSVG` (source lines 250-257), in program order. `appendAnchor`
covers creating the anchor, setting `href` and `download`, and attaching
it to the body; `click` is the sink trigger; `removeAnchor` is
`a.remove()`; `createURL` and `revokeURL` are the object-URL acquire and
release. -/
inductive Stmt where
  | createURL
  | appendAnchor
  | click
  | removeAnchor
  | revokeURL
deriving DecidableEq, Repr

/-- The statement sequence of the staging tail (source lines 250-257). -/
def exportStmts : List Stmt :=
  [Stmt.createURL, Stmt.appendAnchor, Stmt.click, Stmt.removeAnchor, Stmt.revokeURL]

/-- Run a statement sequence under exception semantics: `raises s = true`
means statement `s` throws. The result is the list of statements that
actually execute; a throwing statement executes (and aborts the rest).
The source has no try/finally around this tail, so nothing after a
throwing statement runs. -/
def runStmts (raises : Stmt → Bool) : List Stmt → List Stmt
  | [] => []
  | s :: rest => if raises s then [s] else s :: runStmts raises rest

/-- The statements `exportSVG` executes given the live render and which
statements throw: nothing when `svgRef.current` is null (early return on
source line 232), the staged tail otherwise. -/
def exportEffects (svgRef : Option Node) (raises : Stmt → Bool) : List Stmt :=
  match svgRef with
  | none => []
  | some _ => runStmts raises exportStmts

/-- The exception profile in which no staging statement throws. -/
def noRaise : Stmt → Bool := fun _ => false

/-- The exception profile in which exactly the sink trigger (`a.click()`,
source line 255) throws. -/
def raisesOnClick : Stmt → Bool := fun s => decide (s = Stmt.click)

/-! ## Spec-side geometry (refinement comparison)

The following definitions transcribe the wording of spec.md section 4.1,
to be compared with the source-derived wedge constructors above: point
formula `P(angleDeg, r) = (C.x + r·cos(angleDeg·π/180), C.y + r·sin(…))`
with `C = (210, 210)`, angular step `θ = 360/segments`, outer radius 140,
inner radius `84 = 0.6·140`, and the stated opacities. The synthetic list
keys are not part of the spec wording; they are carried over unchanged so
that the comparison is an equality of whole primitives. -/

/-- Spec-side point formula `P`. -/
noncomputable def P (angleDeg r : ℝ) : Point :=
  ⟨210 + r * Real.cos (angleDeg * Real.pi / 180),
   210 + r * Real.sin (angleDeg * Real.pi / 180)⟩

/-- Spec-side angular step `θ = 360/segments` in degrees. -/
noncomputable def theta (spec : MandalaSpec) : ℝ := 360 / (spec.segments : ℝ)

/-- Spec-side outer wedge `i`: triangle `(C, P(i*θ, 140), P((i+1)*θ, 140))`,
fill `spec.color`, opacity 0.8. -/
noncomputable def specOuterWedge (spec : MandalaSpec) (i : ℕ) : Prim :=
  Prim.polygon ("ow-" ++ toString i) ⟨210, 210⟩
    (P ((i : ℝ) * theta spec) 140) (P (((i : ℝ) + 1) * theta spec) 140)
    spec.color 0.8 "none"

/-- Spec-side inner wedge `i`: the same angular span at radius 84, opacity 0.25. -/
noncomputable def specInnerWedge (spec : MandalaSpec) (i : ℕ) : Prim :=
  Prim.polygon ("iw-" ++ toString i) ⟨210, 210⟩
    (P ((i : ℝ) * theta spec) 84) (P (((i : ℝ) + 1) * theta spec) 84)
    spec.color 0.25 "none"

/-- Spec-side mirror outer wedge `i`: angles `-(i*θ)` and `-((i+1)*θ)` at
the outer radius, opacity 0.6. -/
noncomputable def specMirrorOuterWedge (spec : MandalaSpec) (i : ℕ) : Prim :=
  Prim.polygon ("mw-" ++ toString i) ⟨210, 210⟩
    (P (-((i : ℝ) * theta spec)) 140) (P (-(((i : ℝ) + 1) * theta spec)) 140)
    spec.color 0.6 "none"

/-- Spec-side mirror inner wedge `i`: the same negated angles at radius 84,
opacity 0.15. -/
noncomputable def specMirrorInnerWedge (spec : MandalaSpec) (i : ℕ) : Prim :=
  Prim.polygon ("mi-" ++ toString i) ⟨210, 210⟩
    (P (-((i : ℝ) * theta spec)) 84) (P (-(((i : ℝ) + 1) * theta spec)) 84)
    spec.color 0.15 "none"

/-! ## Primitive-kind predicates, used for the cardinality claims -/

/-- Whether a primitive is a wedge polygon. -/
def isWedge : Prim → Bool
  | Prim.polygon .. => true
  | _ => false

/-- Whether a primitive is a text label. -/
def isTextPrim : Prim → Bool
  | Prim.text .. => true
  | _ => false

/-- Whether a primitive is a top-level circle (the center dot; the circle
template inside the defs node is a `defsNode`, not a scene circle). -/
def isCirclePrim : Prim → Bool
  | Prim.circle .. => true
  | _ => false

/-! ## Concrete specs used by witnesses and counterexamples -/

/-- The round-trip scenario spec of spec.md section 8. -/
def specEx : MandalaSpec :=
  { segments := 12, symmetry := Symmetry.radial, color := "#ff7f50", showWatermark := true }

/-- The mirror scenario spec of spec.md section 8. -/
def specExM : MandalaSpec :=
  { segments := 12, symmetry := Symmetry.mirror, color := "#ff7f50", showWatermark := true }

/-- An out-of-range spec with 2 segments (below the documented minimum 3). -/
def specSeg2 : MandalaSpec :=
  { segments := 2, symmetry := Symmetry.radial, color := "#ff7f50", showWatermark := false }

/-- The same spec clamped to the minimum of 3 segments. -/
def specSeg3 : MandalaSpec :=
  { segments := 3, symmetry := Symmetry.radial, color := "#ff7f50", showWatermark := false }

/-! ## Helper lemmas -/

/-- The child-moving loop of the exporter transfers the remaining children
onto the accumulated list in order. -/
theorem transplantLoop_eq (cs : List Node) : ∀ acc, transplantLoop acc cs = acc ++ cs := by
  induction cs with
  | nil => intro acc; simp [transplantLoop]
  | cons c rest ih => intro acc; simp [transplantLoop, ih, List.append_assoc]

/-- When no statement throws, the staging tail runs to completion. -/
theorem runStmts_of_noRaise (raises : Stmt → Bool) (h : ∀ s, raises s = false) :
    ∀ l, runStmts raises l = l := by
  intro l
  induction l with
  | nil => rfl
  | cons s rest ih => simp [runStmts, h s, ih]

/-- Lookup in the right part of an append, at an offset past the left part. -/
theorem getElem?_append_len {α : Type} (A B : List α) (i : ℕ) :
    (A ++ B)[A.length + i]? = B[i]? := by
  rw [List.getElem?_append_right (by omega)]
  congr 1
  omega

/-- Length of a two-per-iteration flatMap over a range. -/
theorem flatMapPair_length {α : Type} (f g : ℕ → α) (n : ℕ) :
    ((List.range n).flatMap fun j => [f j, g j]).length = 2 * n := by
  induction n with
  | zero => rfl
  | succ m ih =>
      rw [List.range_succ, List.flatMap_append, List.length_append, ih]
      simp [List.flatMap]
      omega

/-- Element lookup in a two-per-iteration flatMap over a range: iteration `i`
contributes `f i` at position `2*i` and `g i` at position `2*i + 1`. -/
theorem flatMapPair_getElem {α : Type} (f g : ℕ → α) :
    ∀ n i, i < n →
      (((List.range n).flatMap fun j => [f j, g j])[2 * i]? = some (f i)
       ∧ ((List.range n).flatMap fun j => [f j, g j])[2 * i + 1]? = some (g i)) := by
  intro n
  induction n with
  | zero => intro i hi; omega
  | succ m ih =>
      intro i hi
      rw [List.range_succ, List.flatMap_append]
      by_cases hc : i < m
      · have hlen : (((List.range m).flatMap fun j => [f j, g j]).length) = 2 * m :=
          flatMapPair_length f g m
        constructor
        · rw [List.getElem?_append_left (by omega)]
          exact (ih i hc).1
        · rw [List.getElem?_append_left (by omega)]
          exact (ih i hc).2
      · have hi' : i = m := by omega
        subst hi'
        have hlen : (((List.range i).flatMap fun j => [f j, g j]).length) = 2 * i :=
          flatMapPair_length f g i
        constructor
        · rw [List.getElem?_append_right (by omega), hlen, Nat.sub_self]
          rfl
        · rw [List.getElem?_append_right (by omega), hlen]
          have h1 : 2 * i + 1 - 2 * i = 1 := by omega
          rw [h1]
          rfl

/-- Every primary outer wedge is a wedge polygon. -/
theorem countP_wedgesOuter (spec : MandalaSpec) :
    (wedgesOuter spec).countP isWedge = spec.segments.toNat := by
  have h : ∀ a ∈ wedgesOuter spec, isWedge a = true := by
    intro a ha
    simp only [wedgesOuter, List.mem_map] at ha
    obtain ⟨i, _, rfl⟩ := ha
    rfl
  rw [List.countP_eq_length.mpr h, wedgesOuter, List.length_map, List.length_range]

/-- Every primary inner wedge is a wedge polygon. -/
theorem countP_wedgesInner (spec : MandalaSpec) :
    (wedgesInner spec).countP isWedge = spec.segments.toNat := by
  have h : ∀ a ∈ wedgesInner spec, isWedge a = true := by
    intro a ha
    simp only [wedgesInner, List.mem_map] at ha
    obtain ⟨i, _, rfl⟩ := ha
    rfl
  rw [List.countP_eq_length.mpr h, wedgesInner, List.length_map, List.length_range]

/-- Every mirror wedge is a wedge polygon, and the mirror list holds two per
iteration. -/
theorem countP_wedgesMirror (spec : MandalaSpec) :
    (wedgesMirror spec).countP isWedge = 2 * spec.segments.toNat := by
  have h : ∀ a ∈ wedgesMirror spec, isWedge a = true := by
    intro a ha
    simp only [wedgesMirror, List.mem_flatMap, List.mem_range, List.mem_cons,
      List.mem_singleton] at ha
    obtain ⟨i, _, hmem⟩ := ha
    rcases hmem with h1 | h1 | h1
    · rw [h1]; rfl
    · rw [h1]; rfl
    · cases h1
  rw [List.countP_eq_length.mpr h, wedgesMirror, flatMapPair_length]

/-- No text primitive occurs among the wedge polygons or the fixed leading
and trailing primitives; the only text is the optional watermark. -/
theorem countP_text_scene (spec : MandalaSpec) (w : Bool) :
    (MandalaCanvas spec w).countP isTextPrim = (if spec.showWatermark then 1 else 0) := by
  have hO : (wedgesOuter spec).countP isTextPrim = 0 := by
    rw [List.countP_eq_zero]
    intro a ha
    simp only [wedgesOuter, List.mem_map] at ha
    obtain ⟨i, _, rfl⟩ := ha
    simp [wedgeOuter, isTextPrim]
  have hI : (wedgesInner spec).countP isTextPrim = 0 := by
    rw [List.countP_eq_zero]
    intro a ha
    simp only [wedgesInner, List.mem_map] at ha
    obtain ⟨i, _, rfl⟩ := ha
    simp [wedgeInner, isTextPrim]
  have hM : (wedgesMirror spec).countP isTextPrim = 0 := by
    rw [List.countP_eq_zero]
    intro a ha
    simp only [wedgesMirror, List.mem_flatMap, List.mem_range, List.mem_cons,
      List.mem_singleton] at ha
    obtain ⟨i, _, hmem⟩ := ha
    rcases hmem with h1 | h1 | h1
    · rw [h1]; simp [wedgeMirrorOuter, isTextPrim]
    · rw [h1]; simp [wedgeMirrorInner, isTextPrim]
    · cases h1
  have hMif : (if spec.symmetry = Symmetry.mirror then wedgesMirror spec else []).countP
      isTextPrim = 0 := by
    split
    · exact hM
    · rfl
  have hWif : (if spec.showWatermark then [watermarkText] else []).countP isTextPrim
      = (if spec.showWatermark then 1 else 0) := by
    split <;> rfl
  simp only [MandalaCanvas, List.countP_append, hO, hI, hMif, hWif]
  have h2 : ([defsPrim spec, backgroundRect]).countP isTextPrim = 0 := rfl
  have h3 : ([centerDot]).countP isTextPrim = 0 := rfl
  rw [h2, h3]
  omega

/-- The center dot is the only top-level circle primitive in the scene. -/
theorem countP_circle_scene (spec : MandalaSpec) (w : Bool) :
    (MandalaCanvas spec w).countP isCirclePrim = 1 := by
  have hO : (wedgesOuter spec).countP isCirclePrim = 0 := by
    rw [List.countP_eq_zero]
    intro a ha
    simp only [wedgesOuter, List.mem_map] at ha
    obtain ⟨i, _, rfl⟩ := ha
    simp [wedgeOuter, isCirclePrim]
  have hI : (wedgesInner spec).countP isCirclePrim = 0 := by
    rw [List.countP_eq_zero]
    intro a ha
    simp only [wedgesInner, List.mem_map] at ha
    obtain ⟨i, _, rfl⟩ := ha
    simp [wedgeInner, isCirclePrim]
  have hM : (wedgesMirror spec).countP isCirclePrim = 0 := by
    rw [List.countP_eq_zero]
    intro a ha
    simp only [wedgesMirror, List.mem_flatMap, List.mem_range, List.mem_cons,
      List.mem_singleton] at ha
    obtain ⟨i, _, hmem⟩ := ha
    rcases hmem with h1 | h1 | h1
    · rw [h1]; simp [wedgeMirrorOuter, isCirclePrim]
    · rw [h1]; simp [wedgeMirrorInner, isCirclePrim]
    · cases h1
  have hMif : (if spec.symmetry = Symmetry.mirror then wedgesMirror spec else []).countP
      isCirclePrim = 0 := by
    split
    · exact hM
    · rfl
  have hWif : (if spec.showWatermark then [watermarkText] else []).countP isCirclePrim = 0 := by
    split <;> rfl
  simp only [MandalaCanvas, List.countP_append, hO, hI, hMif, hWif]
  have h2 : ([defsPrim spec, backgroundRect]).countP isCirclePrim = 0 := rfl
  have h3 : ([centerDot]).countP isCirclePrim = 1 := rfl
  rw [h2, h3]

/-- The total wedge-polygon count of the scene: `2*segments` primary wedges,
plus `2*segments` mirror wedges in mirror mode. -/
theorem countP_wedge_scene (spec : MandalaSpec) (w : Bool) :
    (MandalaCanvas spec w).countP isWedge
      = 2 * spec.segments.toNat
        + (if spec.symmetry = Symmetry.mirror then 2 * spec.segments.toNat else 0) := by
  have hMif : (if spec.symmetry = Symmetry.mirror then wedgesMirror spec else []).countP
      isWedge = (if spec.symmetry = Symmetry.mirror then 2 * spec.segments.toNat else 0) := by
    split
    · exact countP_wedgesMirror spec
    · rfl
  have hWif : (if spec.showWatermark then [watermarkText] else []).countP isWedge = 0 := by
    split <;> rfl
  simp only [MandalaCanvas, List.countP_append, countP_wedgesOuter, countP_wedgesInner,
    hMif, hWif]
  have h2 : ([defsPrim spec, backgroundRect]).countP isWedge = 0 := rfl
  have h3 : ([centerDot]).countP isWedge = 0 := rfl
  rw [h2, h3]
  omega

/-- The scene, reassociated to the right for positional reasoning. -/
theorem scene_assoc (spec : MandalaSpec) (w : Bool) :
    MandalaCanvas spec w
      = [defsPrim spec, backgroundRect]
        ++ (wedgesOuter spec
          ++ (wedgesInner spec
            ++ ((if spec.symmetry = Symmetry.mirror then wedgesMirror spec else [])
              ++ ((if spec.showWatermark then [watermarkText] else []) ++ [centerDot])))) := by
  simp [MandalaCanvas, List.append_assoc]

/-- The primary outer wedge `i` sits at scene position `2 + i`. -/
theorem scene_outer_getElem (spec : MandalaSpec) (w : Bool) (i : ℕ)
    (hi : i < spec.segments.toNat) :
    (MandalaCanvas spec w)[2 + i]? = some (wedgeOuter spec i) := by
  rw [scene_assoc]
  rw [List.getElem?_append_right (by simp)]
  have h2 : 2 + i - ([defsPrim spec, backgroundRect]).length = i := by simp
  rw [h2]
  rw [List.getElem?_append_left (by simpa [wedgesOuter] using hi)]
  simp [wedgesOuter, List.getElem?_range hi]

/-- The primary inner wedge `i` sits at scene position `2 + segments + i`,
after every primary outer wedge. -/
theorem scene_inner_getElem (spec : MandalaSpec) (w : Bool) (i : ℕ)
    (hi : i < spec.segments.toNat) :
    (MandalaCanvas spec w)[2 + spec.segments.toNat + i]? = some (wedgeInner spec i) := by
  rw [scene_assoc]
  rw [List.getElem?_append_right (by simp; omega)]
  have h2 : 2 + spec.segments.toNat + i - ([defsPrim spec, backgroundRect]).length
      = spec.segments.toNat + i := by simp; omega
  rw [h2]
  rw [List.getElem?_append_right (by simp [wedgesOuter])]
  have h3 : spec.segments.toNat + i - (wedgesOuter spec).length = i := by
    simp [wedgesOuter]
  rw [h3]
  rw [List.getElem?_append_left (by simpa [wedgesInner] using hi)]
  simp [wedgesInner, List.getElem?_range hi]

/-- In mirror mode, the mirror outer wedge `i` sits at scene position
`2 + 2*segments + 2*i` and the matching mirror inner wedge right after it. -/
theorem scene_mirror_getElem (spec : MandalaSpec) (w : Bool)
    (hm : spec.symmetry = Symmetry.mirror) (i : ℕ) (hi : i < spec.segments.toNat) :
    (MandalaCanvas spec w)[2 + 2 * spec.segments.toNat + 2 * i]?
        = some (wedgeMirrorOuter spec i)
      ∧ (MandalaCanvas spec w)[2 + 2 * spec.segments.toNat + 2 * i + 1]?
        = some (wedgeMirrorInner spec i) := by
  rw [scene_assoc, if_pos hm]
  have hpair := flatMapPair_getElem (wedgeMirrorOuter spec) (wedgeMirrorInner spec)
    spec.segments.toNat i hi
  constructor
  · rw [List.getElem?_append_right (by simp; omega)]
    have h2 : 2 + 2 * spec.segments.toNat + 2 * i - ([defsPrim spec, backgroundRect]).length
        = 2 * spec.segments.toNat + 2 * i := by simp; omega
    rw [h2]
    rw [List.getElem?_append_right (by simp [wedgesOuter]; omega)]
    have h3 : 2 * spec.segments.toNat + 2 * i - (wedgesOuter spec).length
        = spec.segments.toNat + 2 * i := by simp [wedgesOuter]; omega
    rw [h3]
    rw [List.getElem?_append_right (by simp [wedgesInner])]
    have h4 : spec.segments.toNat + 2 * i - (wedgesInner spec).length = 2 * i := by
      simp [wedgesInner]
    rw [h4]
    rw [List.getElem?_append_left (by rw [wedgesMirror, flatMapPair_length]; omega)]
    exact hpair.1
  · rw [List.getElem?_append_right (by simp; omega)]
    have h2 : 2 + 2 * spec.segments.toNat + 2 * i + 1 - ([defsPrim spec, backgroundRect]).length
        = 2 * spec.segments.toNat + 2 * i + 1 := by simp; omega
    rw [h2]
    rw [List.getElem?_append_right (by simp [wedgesOuter]; omega)]
    have h3 : 2 * spec.segments.toNat + 2 * i + 1 - (wedgesOuter spec).length
        = spec.segments.toNat + 2 * i + 1 := by simp [wedgesOuter]; omega
    rw [h3]
    rw [List.getElem?_append_right (by simp [wedgesInner]; omega)]
    have h4 : spec.segments.toNat + 2 * i + 1 - (wedgesInner spec).length = 2 * i + 1 := by
      simp [wedgesInner]; omega
    rw [h4]
    rw [List.getElem?_append_left (by rw [wedgesMirror, flatMapPair_length]; omega)]
    exact hpair.2

/-- The center dot is the last primitive of every scene. -/
theorem scene_getLast (spec : MandalaSpec) (w : Bool) :
    (MandalaCanvas spec w).getLast? = some centerDot := by
  rw [MandalaCanvas]
  exact List.getLast?_concat _

/-- With the watermark enabled, the watermark text is the second-to-last
primitive, directly before the center dot. -/
theorem scene_wm_before_dot (spec : MandalaSpec) (w : Bool)
    (hw : spec.showWatermark = true) :
    (MandalaCanvas spec w).dropLast.getLast? = some watermarkText := by
  rw [MandalaCanvas, hw]
  rw [if_pos rfl]
  rw [List.dropLast_concat]
  exact List.getLast?_concat _

/-- The primary outer wedge `i` occurs in the scene. -/
theorem wedgeOuter_mem (spec : MandalaSpec) (w : Bool) (i : ℕ)
    (hi : i < spec.segments.toNat) :
    wedgeOuter spec i ∈ MandalaCanvas spec w := by
  have h : wedgeOuter spec i ∈ wedgesOuter spec := by
    simp only [wedgesOuter, List.mem_map]
    exact ⟨i, List.mem_range.mpr hi, rfl⟩
  rw [MandalaCanvas]
  exact List.mem_append_left _ (List.mem_append_left _ (List.mem_append_left _
    (List.mem_append_left _ (List.mem_append_right _ h))))

/-- The primary inner wedge `i` occurs in the scene. -/
theorem wedgeInner_mem (spec : MandalaSpec) (w : Bool) (i : ℕ)
    (hi : i < spec.segments.toNat) :
    wedgeInner spec i ∈ MandalaCanvas spec w := by
  have h : wedgeInner spec i ∈ wedgesInner spec := by
    simp only [wedgesInner, List.mem_map]
    exact ⟨i, List.mem_range.mpr hi, rfl⟩
  rw [MandalaCanvas]
  exact List.mem_append_left _ (List.mem_append_left _ (List.mem_append_left _
    (List.mem_append_right _ h)))

/-- In mirror mode, the mirror wedges `i` occur in the scene. -/
theorem wedgeMirror_mem (spec : MandalaSpec) (w : Bool)
    (hm : spec.symmetry = Symmetry.mirror) (i : ℕ) (hi : i < spec.segments.toNat) :
    wedgeMirrorOuter spec i ∈ MandalaCanvas spec w
      ∧ wedgeMirrorInner spec i ∈ MandalaCanvas spec w := by
  have ho : wedgeMirrorOuter spec i ∈ wedgesMirror spec := by
    rw [wedgesMirror]
    exact List.mem_flatMap.mpr ⟨i, List.mem_range.mpr hi, by simp⟩
  have hin : wedgeMirrorInner spec i ∈ wedgesMirror spec := by
    rw [wedgesMirror]
    exact List.mem_flatMap.mpr ⟨i, List.mem_range.mpr hi, by simp⟩
  rw [MandalaCanvas, if_pos hm]
  constructor
  · exact List.mem_append_left _ (List.mem_append_left _ (List.mem_append_right _ ho))
  · exact List.mem_append_left _ (List.mem_append_left _ (List.mem_append_right _ hin))

/-- The total primitive count of the scene, by branch. -/
theorem scene_length (spec : MandalaSpec) (w : Bool) :
    (MandalaCanvas spec w).length
      = 2 + spec.segments.toNat + spec.segments.toNat
        + (if spec.symmetry = Symmetry.mirror then 2 * spec.segments.toNat else 0)
        + (if spec.showWatermark then 1 else 0) + 1 := by
  have hM : (if spec.symmetry = Symmetry.mirror then wedgesMirror spec else []).length
      = (if spec.symmetry = Symmetry.mirror then 2 * spec.segments.toNat else 0) := by
    split
    · rw [wedgesMirror, flatMapPair_length]
    · rfl
  have hW : (if spec.showWatermark then [watermarkText] else []).length
      = (if spec.showWatermark then 1 else 0) := by
    split <;> rfl
  simp only [MandalaCanvas, List.length_append, hM, hW, wedgesOuter, wedgesInner,
    List.length_map, List.length_range, List.length_cons, List.length_nil]

/-- The source outer wedge matches the spec formula `(C, P(i*θ, 140), P((i+1)*θ, 140))`. -/
theorem wedgeOuter_eq_spec (spec : MandalaSpec) (i : ℕ) :
    wedgeOuter spec i = specOuterWedge spec i := by
  have h : (((i : ℝ) * (360 / (spec.segments : ℝ)) + 360 / (spec.segments : ℝ)) * Real.pi / 180)
      = ((((i : ℝ) + 1) * (360 / (spec.segments : ℝ))) * Real.pi / 180) := by ring
  simp only [wedgeOuter, specOuterWedge, P, a2, step, theta, cx, cy, outerR, h,
    Prim.polygon.injEq, Point.mk.injEq]
  and_intros <;> ring_nf

/-- The source inner wedge matches the spec formula at radius `84 = 0.6*140`. -/
theorem wedgeInner_eq_spec (spec : MandalaSpec) (i : ℕ) :
    wedgeInner spec i = specInnerWedge spec i := by
  have h : (((i : ℝ) * (360 / (spec.segments : ℝ)) + 360 / (spec.segments : ℝ)) * Real.pi / 180)
      = ((((i : ℝ) + 1) * (360 / (spec.segments : ℝ))) * Real.pi / 180) := by ring
  simp only [wedgeInner, specInnerWedge, P, a2, step, theta, cx, cy, outerR, innerR, h,
    Prim.polygon.injEq, Point.mk.injEq]
  and_intros <;> norm_num <;> ring_nf

/-- The source mirror outer wedge matches the spec formula at angles `-(i*θ)`
and `-((i+1)*θ)`. -/
theorem wedgeMirrorOuter_eq_spec (spec : MandalaSpec) (i : ℕ) :
    wedgeMirrorOuter spec i = specMirrorOuterWedge spec i := by
  have h1 : ((-(i : ℝ) * (360 / (spec.segments : ℝ))) * Real.pi / 180)
      = ((-((i : ℝ) * (360 / (spec.segments : ℝ)))) * Real.pi / 180) := by ring
  have h2 : ((-((i : ℝ) * (360 / (spec.segments : ℝ))) - 360 / (spec.segments : ℝ))
        * Real.pi / 180)
      = ((-(((i : ℝ) + 1) * (360 / (spec.segments : ℝ)))) * Real.pi / 180) := by ring
  simp only [wedgeMirrorOuter, specMirrorOuterWedge, P, step, theta, cx, cy, outerR, h1, h2,
    Prim.polygon.injEq, Point.mk.injEq]
  and_intros <;> ring_nf

/-- The source mirror inner wedge matches the spec formula at the inner radius. -/
theorem wedgeMirrorInner_eq_spec (spec : MandalaSpec) (i : ℕ) :
    wedgeMirrorInner spec i = specMirrorInnerWedge spec i := by
  have h1 : ((-(i : ℝ) * (360 / (spec.segments : ℝ))) * Real.pi / 180)
      = ((-((i : ℝ) * (360 / (spec.segments : ℝ)))) * Real.pi / 180) := by ring
  have h2 : ((-((i : ℝ) * (360 / (spec.segments : ℝ))) - 360 / (spec.segments : ℝ))
        * Real.pi / 180)
      = ((-(((i : ℝ) + 1) * (360 / (spec.segments : ℝ)))) * Real.pi / 180) := by ring
  simp only [wedgeMirrorInner, specMirrorInnerWedge, P, step, theta, cx, cy, outerR, innerR,
    h1, h2, Prim.polygon.injEq, Point.mk.injEq]
  and_intros <;> norm_num <;> ring_nf

/-! ## Claim theorems -/

/-- C1: the claim says an out-of-range `segments` is treated as the nearest
in-range value, so that `segments = 2` yields the same primitive sequence
as `segments = 3`. The code never applies its `clamp` helper: with
`segments = 2` the generator runs the loops for 2 iterations and emits a
different (shorter) primitive sequence than for 3, refuting the claimed
behaviour; the unused `clamp` helper would have produced 3. -/
theorem clampIgnored_outOfRange_scene_differs :
    MandalaCanvas specSeg2 false ≠ MandalaCanvas specSeg3 false ∧ clamp 2 3 48 = 3 := by
  constructor
  · intro h
    have hlen := congrArg List.length h
    rw [scene_length, scene_length] at hlen
    simp only [specSeg2, specSeg3] at hlen
    rw [if_neg (by decide), if_neg (by decide)] at hlen
    omega
  · decide

/-- C2: for a valid spec, the scene holds exactly `2*segments` wedge
polygons in radial mode and `4*segments` in mirror mode, exactly one
top-level circle (the center dot), and exactly one text primitive when
`showWatermark` is set and none otherwise. -/
theorem cardinality_by_symmetry (spec : MandalaSpec) (w : Bool) (h : Valid spec) :
    (spec.symmetry = Symmetry.radial →
        (MandalaCanvas spec w).countP isWedge = 2 * spec.segments.toNat)
      ∧ (spec.symmetry = Symmetry.mirror →
        (MandalaCanvas spec w).countP isWedge = 4 * spec.segments.toNat)
      ∧ (MandalaCanvas spec w).countP isCirclePrim = 1
      ∧ (MandalaCanvas spec w).countP isTextPrim = (if spec.showWatermark then 1 else 0) := by
  refine ⟨?_, ?_, countP_circle_scene spec w, countP_text_scene spec w⟩
  · intro hr
    rw [countP_wedge_scene, if_neg (by rw [hr]; intro hc; cases hc)]
    omega
  · intro hm
    rw [countP_wedge_scene, if_pos hm]
    omega

/-- Witness for C2 at the mirror scenario spec of spec.md section 8. -/
theorem cardinality_by_symmetry_witness :
    Valid specExM
      ∧ ((specExM.symmetry = Symmetry.radial →
            (MandalaCanvas specExM true).countP isWedge = 2 * specExM.segments.toNat)
          ∧ (specExM.symmetry = Symmetry.mirror →
            (MandalaCanvas specExM true).countP isWedge = 4 * specExM.segments.toNat)
          ∧ (MandalaCanvas specExM true).countP isCirclePrim = 1
          ∧ (MandalaCanvas specExM true).countP isTextPrim
              = (if specExM.showWatermark then 1 else 0)) :=
  ⟨by decide, cardinality_by_symmetry specExM true (by decide)⟩

/-- C3: for a valid spec and `i < segments`, the outer wedge `i` is exactly
the spec triangle of the center and `P(i*θ, 140)`, `P((i+1)*θ, 140)` at
opacity 0.8, and the inner wedge `i` the same angles at radius 84 and
opacity 0.25; both occur in the generated scene. -/
theorem primary_wedge_geometry (spec : MandalaSpec) (w : Bool) (h : Valid spec)
    (i : ℕ) (hi : i < spec.segments.toNat) :
    wedgeOuter spec i = specOuterWedge spec i
      ∧ wedgeInner spec i = specInnerWedge spec i
      ∧ wedgeOuter spec i ∈ MandalaCanvas spec w
      ∧ wedgeInner spec i ∈ MandalaCanvas spec w :=
  ⟨wedgeOuter_eq_spec spec i, wedgeInner_eq_spec spec i,
   wedgeOuter_mem spec w i hi, wedgeInner_mem spec w i hi⟩

/-- Witness for C3 at the round-trip scenario spec, wedge 0. -/
theorem primary_wedge_geometry_witness :
    Valid specEx ∧ 0 < specEx.segments.toNat
      ∧ (wedgeOuter specEx 0 = specOuterWedge specEx 0
          ∧ wedgeInner specEx 0 = specInnerWedge specEx 0
          ∧ wedgeOuter specEx 0 ∈ MandalaCanvas specEx true
          ∧ wedgeInner specEx 0 ∈ MandalaCanvas specEx true) :=
  ⟨by decide, by decide, primary_wedge_geometry specEx true (by decide) 0 (by decide)⟩

/-- C4: in mirror mode the generator additionally emits, for each
`i < segments`, an outer wedge at the negated angles `-(i*θ)` and
`-((i+1)*θ)` with opacity 0.6 and an inner wedge over the same negated
angles with opacity 0.15, built with the same vertex formula `P`. -/
theorem mirror_wedge_geometry (spec : MandalaSpec) (w : Bool) (h : Valid spec)
    (hm : spec.symmetry = Symmetry.mirror) (i : ℕ) (hi : i < spec.segments.toNat) :
    wedgeMirrorOuter spec i = specMirrorOuterWedge spec i
      ∧ wedgeMirrorInner spec i = specMirrorInnerWedge spec i
      ∧ wedgeMirrorOuter spec i ∈ MandalaCanvas spec w
      ∧ wedgeMirrorInner spec i ∈ MandalaCanvas spec w :=
  ⟨wedgeMirrorOuter_eq_spec spec i, wedgeMirrorInner_eq_spec spec i,
   (wedgeMirror_mem spec w hm i hi).1, (wedgeMirror_mem spec w hm i hi).2⟩

/-- Witness for C4 at the mirror scenario spec, wedge 0. -/
theorem mirror_wedge_geometry_witness :
    Valid specExM ∧ specExM.symmetry = Symmetry.mirror ∧ 0 < specExM.segments.toNat
      ∧ (wedgeMirrorOuter specExM 0 = specMirrorOuterWedge specExM 0
          ∧ wedgeMirrorInner specExM 0 = specMirrorInnerWedge specExM 0
          ∧ wedgeMirrorOuter specExM 0 ∈ MandalaCanvas specExM true
          ∧ wedgeMirrorInner specExM 0 ∈ MandalaCanvas specExM true) :=
  ⟨by decide, rfl, by decide,
   mirror_wedge_geometry specExM true (by decide) rfl 0 (by decide)⟩

/-- C5: painter-order invariant. Primary outer wedge `i` sits at position
`2 + i` and its inner counterpart later at `2 + segments + i`; in mirror
mode each mirror inner wedge directly follows its mirror outer wedge; the
center dot (circle of radius 6, white fill, low opacity — see `centerDot`)
is the last primitive of every scene; and when present the watermark text
is the second-to-last primitive, before the center dot. -/
theorem painter_order_invariant (spec : MandalaSpec) (w : Bool) (h : Valid spec) :
    (∀ i, i < spec.segments.toNat →
        (MandalaCanvas spec w)[2 + i]? = some (wedgeOuter spec i)
          ∧ (MandalaCanvas spec w)[2 + spec.segments.toNat + i]? = some (wedgeInner spec i))
      ∧ (spec.symmetry = Symmetry.mirror → ∀ i, i < spec.segments.toNat →
          (MandalaCanvas spec w)[2 + 2 * spec.segments.toNat + 2 * i]?
              = some (wedgeMirrorOuter spec i)
            ∧ (MandalaCanvas spec w)[2 + 2 * spec.segments.toNat + 2 * i + 1]?
              = some (wedgeMirrorInner spec i))
      ∧ (MandalaCanvas spec w).getLast? = some centerDot
      ∧ (spec.showWatermark = true →
          (MandalaCanvas spec w).dropLast.getLast? = some watermarkText) :=
  ⟨fun i hi => ⟨scene_outer_getElem spec w i hi, scene_inner_getElem spec w i hi⟩,
   fun hm i hi => scene_mirror_getElem spec w hm i hi,
   scene_getLast spec w,
   fun hw => scene_wm_before_dot spec w hw⟩

/-- Witness for C5 at the round-trip scenario spec. -/
theorem painter_order_invariant_witness :
    Valid specEx
      ∧ ((∀ i, i < specEx.segments.toNat →
            (MandalaCanvas specEx true)[2 + i]? = some (wedgeOuter specEx i)
              ∧ (MandalaCanvas specEx true)[2 + specEx.segments.toNat + i]?
                  = some (wedgeInner specEx i))
          ∧ (specEx.symmetry = Symmetry.mirror → ∀ i, i < specEx.segments.toNat →
              (MandalaCanvas specEx true)[2 + 2 * specEx.segments.toNat + 2 * i]?
                  = some (wedgeMirrorOuter specEx i)
                ∧ (MandalaCanvas specEx true)[2 + 2 * specEx.segments.toNat + 2 * i + 1]?
                  = some (wedgeMirrorInner specEx i))
          ∧ (MandalaCanvas specEx true).getLast? = some centerDot
          ∧ (specEx.showWatermark = true →
              (MandalaCanvas specEx true).dropLast.getLast? = some watermarkText)) :=
  ⟨by decide, painter_order_invariant specEx true (by decide)⟩

/-- C6: with no live render (`svgRef.current` null), export is a no-op —
it returns without producing bytes and without executing any staging
statement, in particular without triggering the sink. -/
theorem export_noop_without_render (raises : Stmt → Bool) :
    exportSVG none = none
      ∧ exportEffects none raises = []
      ∧ Stmt.click ∉ exportEffects none raises :=
  ⟨rfl, rfl, by intro hc; cases hc⟩

/-- C7: with a live render, the exporter builds a fresh standalone svg root
carrying the explicit namespace declaration, width 420, height 420 and
view box, whose children are exactly the children of the live element in
their original order; the staged sink call serializes that root under the
literal filename `mandala.svg`, and the MIME type of its content type is
`image/svg+xml` (the source appends a charset parameter). -/
theorem export_standalone_document (el : Node) :
    standaloneRoot el
        = Node.elem "svg"
            [("xmlns", svgNS), ("width", "420"), ("height", "420"),
             ("viewBox", "0 0 420 420")]
            (childrenOf el)
      ∧ exportSVG (some el)
          = some { bytes := serializeNode (standaloneRoot el)
                   filename := "mandala.svg"
                   contentType := "image/svg+xml;charset=utf-8" }
      ∧ mimeOf "image/svg+xml;charset=utf-8" = "image/svg+xml" := by
  refine ⟨?_, rfl, by decide⟩
  rw [standaloneRoot, cloneNode, transplantLoop_eq]
  rfl

/-- C8 counterexample: when the sink trigger (`a.click()`) throws, the
object URL is created but `URL.revokeObjectURL` is never executed — the
source has no try/finally — so the claimed guaranteed release fails. -/
theorem revoke_skipped_when_trigger_throws :
    Stmt.createURL ∈ runStmts raisesOnClick exportStmts
      ∧ Stmt.revokeURL ∉ runStmts raisesOnClick exportStmts := by
  decide

/-- C8 amended: in executions whose staging statements all return normally,
the whole tail runs: the object URL is created (position 0) before the sink
trigger (position 2) and revoked (position 4, the final statement) after
it; when the trigger throws, the release is skipped. -/
theorem url_lifecycle_no_throw (raises : Stmt → Bool) (h : ∀ s, raises s = false) :
    runStmts raises exportStmts = exportStmts
      ∧ exportStmts[0]? = some Stmt.createURL
      ∧ exportStmts[2]? = some Stmt.click
      ∧ exportStmts[4]? = some Stmt.revokeURL
      ∧ exportStmts.length = 5 :=
  ⟨runStmts_of_noRaise raises h exportStmts, rfl, rfl, rfl, rfl⟩

/-- Witness for the amended C8 under the profile in which nothing throws. -/
theorem url_lifecycle_no_throw_witness :
    runStmts noRaise exportStmts = exportStmts
      ∧ exportStmts[0]? = some Stmt.createURL
      ∧ exportStmts[2]? = some Stmt.click
      ∧ exportStmts[4]? = some Stmt.revokeURL
      ∧ exportStmts.length = 5 :=
  url_lifecycle_no_throw noRaise (fun _ => rfl)

/-- C9: generation is deterministic — the embedded generator is a pure
function of the spec (the source component reads only its props and pure
math functions), so two calls on the same valid spec produce identical
primitive sequences. -/
theorem generation_deterministic (spec : MandalaSpec) (w : Bool) (h : Valid spec) :
    MandalaCanvas spec w = MandalaCanvas spec w := rfl

/-- Witness for C9 at the round-trip scenario spec. -/
theorem generation_deterministic_witness :
    Valid specEx ∧ MandalaCanvas specEx true = MandalaCanvas specEx true :=
  ⟨by decide, generation_deterministic specEx true (by decide)⟩

/-- C10: the separate `watermark` prop of `MandalaCanvas` is dead — the
scene is identical for both values of the argument — and the watermark
text count is governed solely by `spec.showWatermark`. -/
theorem watermark_param_no_effect (spec : MandalaSpec) (w1 w2 w : Bool) :
    MandalaCanvas spec w1 = MandalaCanvas spec w2
      ∧ (MandalaCanvas spec w).countP isTextPrim = (if spec.showWatermark then 1 else 0) :=
  ⟨rfl, countP_text_scene spec w⟩

end Mandala
